import Mathlib

/-!
Verification development for the Devhub realtime presence / chat server.

The definitions below are a shallow embedding of `backend/src/socket.ts`
(the socket.io event handlers installed by `attachSocket`), of the chat
persistence collaborator it calls, and of the client-side movement /
meeting-zone code in the office scene component.  JavaScript numbers are
modelled as rationals (ℚ), JS `Map`s as association lists with the same
set/get/delete semantics, and loosely-typed payload fields as an explicit
`JsStr` value type so that the source's `typeof` / truthiness guards can be
reproduced exactly.
-/

namespace Devhub

/-- Value of a loosely typed (string-expected) payload field as it arrives
over the wire: `undefined`, `null`, an actual string, or some other
JS value of which only the truthiness matters to the code. -/
inductive JsStr where
  | undef
  | nullv
  | str (s : String)
  | other (truthy : Bool)
  deriving DecidableEq

/-- JS truthiness of a `JsStr` value (`""`, `null`, `undefined` are falsy). -/
def JsStr.truthy : JsStr → Bool
  | .undef => false
  | .nullv => false
  | .str s => s ≠ ""
  | .other t => t

/-- The guard `if (!v || typeof v !== "string") return;` used for
`spaceId` fields: yields the string when it passes, `none` when the
handler returns early. -/
def JsStr.asReqString : JsStr → Option String
  | .str s => if s = "" then none else some s
  | _ => none

/-- String interpolation of a `JsStr` (the template-literal behaviour
of `${v}` for the non-string cases). -/
def JsStr.display : JsStr → String
  | .undef => "undefined"
  | .nullv => "null"
  | .str s => s
  | .other _ => "[object Object]"

/-- The coercion `typeof v === "string" ? v : d` used for `direction`. -/
def JsStr.strOrDefault (v : JsStr) (d : String) : String :=
  match v with
  | .str s => s
  | _ => d

/-- The coercion `payload.avatar ?? null`. -/
def JsStr.coalesceNull : JsStr → JsStr
  | .undef => .nullv
  | v => v

/-- The coercion `typeof v === "number" ? v : 0` for position fields
(`none` stands for a field that is absent or not number-typed). -/
def numOrZero : Option ℚ → ℚ
  | some q => q
  | none => 0

/-- Strip leading and trailing whitespace from a character list. -/
def trimChars (l : List Char) : List Char :=
  ((l.dropWhile Char.isWhitespace).reverse.dropWhile Char.isWhitespace).reverse

/-- JS `String.prototype.trim()`: drop whitespace at both ends
(executable model of the builtin). -/
def jsTrim (s : String) : String := String.mk (trimChars s.data)

/-- JS `s.slice(0, n)`: the first `n` units of the string. -/
def jsSlice (s : String) (n : Nat) : String := String.mk (s.data.take n)

/-- The coercion for `displayName`:
`typeof v === "string" && v.trim() ? v.trim() : "User"`. -/
def displayNameOf (v : JsStr) : String :=
  match v with
  | .str s => if jsTrim s = "" then "User" else jsTrim s
  | _ => "User"

/-- `dmChannelId` from socket.ts: `[userId1, userId2].sort().join("_")`. -/
def dmChannelId (userId1 userId2 : String) : String :=
  if userId1 ≤ userId2 then userId1 ++ "_" ++ userId2 else userId2 ++ "_" ++ userId1

/-- `MAX_CHAT_CONTENT_LENGTH` from socket.ts. -/
def MAX_CHAT_CONTENT_LENGTH : Nat := 2000

/-! ### JS `Map` as an association list (unique keys, insertion order) -/

/-- `Map.set`: replace the value at an existing key in place, otherwise
append the new binding at the end (JS Maps preserve insertion order). -/
def setA {α β : Type} [DecidableEq α] : List (α × β) → α → β → List (α × β)
  | [], k, v => [(k, v)]
  | (k₁, v₁) :: rest, k, v =>
      if k₁ = k then (k, v) :: rest else (k₁, v₁) :: setA rest k v

/-- `Map.get`: first binding of the key, if any. -/
def getA {α β : Type} [DecidableEq α] : List (α × β) → α → Option β
  | [], _ => none
  | (k₁, v₁) :: rest, k => if k₁ = k then some v₁ else getA rest k

/-- `Map.delete`: drop the key's binding. -/
def delA {α β : Type} [DecidableEq α] : List (α × β) → α → List (α × β)
  | [], _ => []
  | (k₁, v₁) :: rest, k =>
      if k₁ = k then delA rest k else (k₁, v₁) :: delA rest k

/-! ### Server state -/

/-- One value of the in-memory presence map:
`{ userId, displayName, x, y, z, direction, avatar }`. -/
structure PresenceData where
  userId : String
  displayName : String
  x : ℚ
  y : ℚ
  z : ℚ
  direction : String
  avatar : JsStr
  deriving DecidableEq

/-- A socket.io broadcast-group key.  The source keys rooms by the template
strings `space:<spaceId>` and `dm:<channelId>`; the structured key encodes
exactly those templates (distinct prefixes, identity payload). -/
inductive RoomKey where
  | space (spaceId : String)
  | dm (channelId : String)
  deriving DecidableEq

/-- Whole-server state: the module-level `presence` map
(spaceId → socketId → PresenceData), socket.io's room membership, and the
per-socket mutable `currentSpaceId` field (absent binding = `undefined`). -/
structure ServerState where
  presence : List (String × List (String × PresenceData))
  rooms : List (RoomKey × List String)
  currentSpace : List (String × String)
  deriving DecidableEq

/-- A freshly started server: no presence, no rooms, no current spaces. -/
def ServerState.empty : ServerState := ⟨[], [], []⟩

/-- Members of a broadcast group (absent room = no members). -/
def roomMembers (st : ServerState) (r : RoomKey) : List String :=
  (getA st.rooms r).getD []

/-- `socket.join(room)`: no-op when already a member, else append. -/
def roomJoin (st : ServerState) (r : RoomKey) (sid : String) : ServerState :=
  let ms := roomMembers st r
  if sid ∈ ms then st else { st with rooms := setA st.rooms r (ms ++ [sid]) }

/-- `socket.leave(room)`. -/
def roomLeave (st : ServerState) (r : RoomKey) (sid : String) : ServerState :=
  match getA st.rooms r with
  | none => st
  | some ms => { st with rooms := setA st.rooms r (ms.filter (fun m => m ≠ sid)) }

/-- `getOrCreateSpace` from socket.ts: returns the space's socket map,
inserting an empty one into `presence` when the space is unknown. -/
def getOrCreateSpace (st : ServerState) (spaceId : String) :
    ServerState × List (String × PresenceData) :=
  match getA st.presence spaceId with
  | some m => (st, m)
  | none => ({ st with presence := setA st.presence spaceId [] }, [])

/-- One row of the roster sent in `space_state` (socketId plus the record),
as built by `getSpaceUsers`. -/
structure RosterEntry where
  socketId : String
  userId : String
  displayName : String
  x : ℚ
  y : ℚ
  z : ℚ
  direction : String
  avatar : JsStr
  deriving DecidableEq

/-- `getSpaceUsers` from socket.ts. -/
def getSpaceUsers (st : ServerState) (spaceId : String) : List RosterEntry :=
  ((getA st.presence spaceId).getD []).map
    (fun p => ⟨p.1, p.2.userId, p.2.displayName, p.2.x, p.2.y, p.2.z, p.2.direction, p.2.avatar⟩)

/-- The connection ids present in a space (the spec's `listBySpace`,
projected to connection ids). -/
def listBySpace (st : ServerState) (spaceId : String) : List String :=
  ((getA st.presence spaceId).getD []).map Prod.fst

/-! ### Outbound events -/

/-- A server→client event, carrying the payload fields the handlers emit. -/
inductive SEvent where
  | spaceState (users : List RosterEntry)
  | userJoined (userId socketId displayName : String) (x y z : ℚ) (direction : String) (avatar : JsStr)
  | userLeft (userId socketId : String)
  | userMoved (userId socketId : String) (x y z : ℚ) (direction : String)
  | chatMessage (id : Nat) (channelType channelId senderUserId senderDisplayName content : String)
  deriving DecidableEq

/-- One emission: the event and the set of socket ids it is delivered to
(`socket.emit` = the socket itself; `socket.to(room).emit` = the room's
members minus the sender; `io.to(room).emit` = all of the room's members). -/
structure Emit where
  recipients : List String
  event : SEvent
  deriving DecidableEq

/-- Number of emissions satisfying `f` that are delivered to `sid`. -/
def deliveredCount (evts : List Emit) (sid : String) (f : SEvent → Bool) : Nat :=
  (evts.filter (fun e => f e.event && e.recipients.contains sid)).length

/-- Recogniser for `user_left` events about a given socket. -/
def SEvent.isUserLeftOf (sid : String) : SEvent → Bool
  | .userLeft _ s => s = sid
  | _ => false

/-- Recogniser for `user_moved` events about a given socket. -/
def SEvent.isUserMovedOf (sid : String) : SEvent → Bool
  | .userMoved _ s _ _ _ _ => s = sid
  | _ => false

/-- The per-connection identity binding established by the session gate:
the socket id together with the immutable `userId` closure variable. -/
structure Conn where
  sid : String
  uid : String
  deriving DecidableEq

/-! ### Inbound payloads -/

/-- Payload of `join_space`. -/
structure JoinSpacePayload where
  spaceId : JsStr
  displayName : JsStr
  x : Option ℚ
  y : Option ℚ
  z : Option ℚ
  direction : JsStr
  avatar : JsStr
  deriving DecidableEq

/-- Payload of `leave_space`. -/
structure LeaveSpacePayload where
  spaceId : JsStr
  deriving DecidableEq

/-- Payload of `join_dm` / `leave_dm`. -/
structure JoinDmPayload where
  otherUserId : JsStr
  deriving DecidableEq

/-- Payload of `move`. -/
structure MovePayload where
  spaceId : JsStr
  x : Option ℚ
  y : Option ℚ
  z : Option ℚ
  direction : JsStr
  deriving DecidableEq

/-- Payload of `chat_message`. -/
structure ChatPayload where
  channelType : JsStr
  channelId : JsStr
  content : JsStr
  deriving DecidableEq

/-- The coalescing `payload?.spaceId ?? socket.currentSpaceId` in the
`leave_space` handler (`??` fires on `undefined` and `null` only). -/
def coalesceSpaceId (v : JsStr) (fallback : Option String) : JsStr :=
  match v with
  | .undef => (match fallback with | some s => .str s | none => .undef)
  | .nullv => (match fallback with | some s => .str s | none => .undef)
  | v => v

/-! ### Event handlers of `attachSocket` -/

/-- The `join_space` handler. -/
def joinSpace (st : ServerState) (c : Conn) (p : JoinSpacePayload) :
    ServerState × List Emit :=
  match p.spaceId.asReqString with
  | none => (st, [])
  | some spaceId =>
    let displayName := displayNameOf p.displayName
    let x := numOrZero p.x
    let y := numOrZero p.y
    let z := numOrZero p.z
    let direction := p.direction.strOrDefault "down"
    let avatar := p.avatar.coalesceNull
    let room := RoomKey.space spaceId
    let st₁ := roomJoin st room c.sid
    let sp := getOrCreateSpace st₁ spaceId
    let rec₀ : PresenceData := ⟨c.uid, displayName, x, y, z, direction, avatar⟩
    let st₂ := { sp.1 with presence := setA sp.1.presence spaceId (setA sp.2 c.sid rec₀) }
    let st₃ := { st₂ with currentSpace := setA st₂.currentSpace c.sid spaceId }
    let users := getSpaceUsers st₃ spaceId
    (st₃,
      [⟨[c.sid], .spaceState users⟩,
       ⟨(roomMembers st₃ room).filter (fun m => m ≠ c.sid),
        .userJoined c.uid c.sid displayName x y z direction avatar⟩])

/-- The `leave_space` handler. -/
def leaveSpace (st : ServerState) (c : Conn) (p : LeaveSpacePayload) :
    ServerState × List Emit :=
  let sv := coalesceSpaceId p.spaceId (getA st.currentSpace c.sid)
  if sv.truthy = false then (st, [])
  else
    let spaceId := sv.display
    let room := RoomKey.space spaceId
    let st₁ := roomLeave st room c.sid
    let st₂ :=
      match getA st₁.presence spaceId with
      | none => st₁
      | some space =>
        let space₂ := delA space c.sid
        if space₂ = [] then { st₁ with presence := delA st₁.presence spaceId }
        else { st₁ with presence := setA st₁.presence spaceId space₂ }
    let st₃ := { st₂ with currentSpace := delA st₂.currentSpace c.sid }
    (st₃, [⟨(roomMembers st₃ room).filter (fun m => m ≠ c.sid), .userLeft c.uid c.sid⟩])

/-- The `join_dm` handler (`if (!otherUserId || typeof otherUserId !==
"string" || otherUserId === userId) return;`). -/
def joinDm (st : ServerState) (c : Conn) (p : JoinDmPayload) :
    ServerState × List Emit :=
  match p.otherUserId with
  | .str s =>
      if s = "" ∨ s = c.uid then (st, [])
      else (roomJoin st (.dm (dmChannelId c.uid s)) c.sid, [])
  | _ => (st, [])

/-- The `leave_dm` handler. -/
def leaveDm (st : ServerState) (c : Conn) (p : JoinDmPayload) :
    ServerState × List Emit :=
  match p.otherUserId with
  | .str s =>
      if s = "" then (st, [])
      else (roomLeave st (.dm (dmChannelId c.uid s)) c.sid, [])
  | _ => (st, [])

/-- The `move` handler.  Note: no clamping, and the `user_moved` broadcast
is emitted whether or not the sender has a presence record. -/
def moveHandler (st : ServerState) (c : Conn) (p : MovePayload) :
    ServerState × List Emit :=
  match p.spaceId.asReqString with
  | none => (st, [])
  | some spaceId =>
    let x := numOrZero p.x
    let y := numOrZero p.y
    let z := numOrZero p.z
    let direction := p.direction.strOrDefault "down"
    let sp := getOrCreateSpace st spaceId
    let st₂ :=
      match getA sp.2 c.sid with
      | none => sp.1
      | some existing =>
        { sp.1 with
          presence := setA sp.1.presence spaceId
            (setA sp.2 c.sid { existing with x := x, y := y, z := z, direction := direction }) }
    (st₂,
      [⟨(roomMembers st₂ (.space spaceId)).filter (fun m => m ≠ c.sid),
        .userMoved c.uid c.sid x y z direction⟩])

/-- Transport-level bookkeeping after a socket disconnects: socket.io
removes it from every room; its per-socket fields die with it. -/
def dropSocket (st : ServerState) (sid : String) : ServerState :=
  { st with
    rooms := st.rooms.map (fun kv => (kv.1, kv.2.filter (fun m => m ≠ sid))),
    currentSpace := delA st.currentSpace sid }

/-- The `disconnect` handler, followed by the transport's room cleanup. -/
def disconnect (st : ServerState) (c : Conn) : ServerState × List Emit :=
  match getA st.currentSpace c.sid with
  | none => (dropSocket st c.sid, [])
  | some spaceId =>
    let room := RoomKey.space spaceId
    let st₁ :=
      match getA st.presence spaceId with
      | none => st
      | some space =>
        let space₂ := delA space c.sid
        if space₂ = [] then { st with presence := delA st.presence spaceId }
        else { st with presence := setA st.presence spaceId space₂ }
    (dropSocket st₁ c.sid,
      [⟨(roomMembers st₁ room).filter (fun m => m ≠ c.sid), .userLeft c.uid c.sid⟩])

/-! ### Chat persistence collaborator and the `chat_message` handler -/

/-- One persisted `chatMessage` row (`createdAt` omitted; ids are assigned
serially by the store). -/
structure ChatRow where
  id : Nat
  channelType : String
  channelId : String
  senderUserId : String
  content : String
  deriving DecidableEq

/-- The database state the handler consults: `space` rows
(id → organizationId), `orgMembership` rows (userId, organizationId),
user display names, and the persisted messages. -/
structure ChatDb where
  spaces : List (String × String)
  orgMembers : List (String × String)
  displayNames : List (String × String)
  messages : List ChatRow
  deriving DecidableEq

/-- The `chat_message` handler: trim/require content, truncate to
`MAX_CHAT_CONTENT_LENGTH`, require a known channel type; for SPACE
channels require the space row and the sender's org membership before
persisting and broadcasting; for DM channels recompute the canonical
channel id and persist/broadcast. -/
def chatMessage (st : ServerState) (db : ChatDb) (c : Conn) (p : ChatPayload) :
    ChatDb × List Emit :=
  let content₀ := match p.content with | .str s => jsTrim s | _ => ""
  if p.channelType.truthy = false ∨ p.channelId.truthy = false ∨ content₀ = "" then (db, [])
  else
    let content :=
      if MAX_CHAT_CONTENT_LENGTH < content₀.length then jsSlice content₀ MAX_CHAT_CONTENT_LENGTH
      else content₀
    if p.channelType ≠ .str "SPACE" ∧ p.channelType ≠ .str "DM" then (db, [])
    else if p.channelType = .str "SPACE" then
      let channelId := p.channelId.display
      match getA db.spaces channelId with
      | none => (db, [])
      | some organizationId =>
        if db.orgMembers.contains (c.uid, organizationId) = false then (db, [])
        else
          let row : ChatRow := ⟨db.messages.length, "SPACE", channelId, c.uid, content⟩
          ({ db with messages := db.messages ++ [row] },
            [⟨roomMembers st (.space channelId),
              .chatMessage row.id "SPACE" channelId c.uid
                ((getA db.displayNames c.uid).getD "") content⟩])
    else
      let otherUserId := p.channelId.display
      let roomId := dmChannelId c.uid otherUserId
      let row : ChatRow := ⟨db.messages.length, "DM", roomId, c.uid, content⟩
      ({ db with messages := db.messages ++ [row] },
        [⟨roomMembers st (.dm roomId),
          .chatMessage row.id "DM" roomId c.uid
            ((getA db.displayNames c.uid).getD "") content⟩])

/-! ### Runs of socket events -/

/-- An inbound socket event (chat is modelled separately because it also
threads the database). -/
inductive Action where
  | joinSpaceA (c : Conn) (p : JoinSpacePayload)
  | leaveSpaceA (c : Conn) (p : LeaveSpacePayload)
  | joinDmA (c : Conn) (p : JoinDmPayload)
  | leaveDmA (c : Conn) (p : JoinDmPayload)
  | moveA (c : Conn) (p : MovePayload)
  | disconnectA (c : Conn)
  deriving DecidableEq

/-- Dispatch one inbound event to its handler. -/
def step (st : ServerState) : Action → ServerState × List Emit
  | .joinSpaceA c p => joinSpace st c p
  | .leaveSpaceA c p => leaveSpace st c p
  | .joinDmA c p => joinDm st c p
  | .leaveDmA c p => leaveDm st c p
  | .moveA c p => moveHandler st c p
  | .disconnectA c => disconnect st c

/-- Process a sequence of inbound events, collecting every emission. -/
def run (st : ServerState) : List Action → ServerState × List Emit
  | [] => (st, [])
  | a :: rest =>
    let r₁ := step st a
    let r₂ := run r₁.1 rest
    (r₂.1, r₁.2 ++ r₂.2)

/-! ### Client-side office scene: layout constants, movement clamp,
meeting-zone detector (from the office page component) -/

/-- `GRID_SIZE` from the office scene. -/
def GRID_SIZE : ℚ := 24

/-- `CELL` from the office scene (1.5). -/
def CELL : ℚ := 3 / 2

/-- `FLOOR_W = GRID_SIZE * CELL`. -/
def FLOOR_W : ℚ := GRID_SIZE * CELL

/-- `FLOOR_D = GRID_SIZE * CELL`. -/
def FLOOR_D : ℚ := GRID_SIZE * CELL

/-- The movement-tick clamp of the x coordinate:
`Math.max(-FLOOR_W / 2 + 1, Math.min(FLOOR_W / 2 - 1, x + dx))`. -/
def clientClampX (x dx : ℚ) : ℚ :=
  max (-FLOOR_W / 2 + 1) (min (FLOOR_W / 2 - 1) (x + dx))

/-- The movement-tick clamp of the z coordinate. -/
def clientClampZ (z dz : ℚ) : ℚ :=
  max (-FLOOR_D / 2 + 1) (min (FLOOR_D / 2 - 1) (z + dz))

/-- `FLOOR_HALF` of the Phase-3 socket revision in the repository
("movement bounds (match frontend floor size)"): 17.5. -/
def FLOOR_HALF : ℚ := 35 / 2

/-- `clampPosition` of the Phase-3 socket revision: clamp x and z into
`[-FLOOR_HALF, FLOOR_HALF]`.  The socket.ts revision the claims cite does
not call it; it is embedded to make the divergence statable. -/
def clampPosition (x z : ℚ) : ℚ × ℚ :=
  (max (-FLOOR_HALF) (min FLOOR_HALF x), max (-FLOOR_HALF) (min FLOOR_HALF z))

/-- A room of the office layout:
`{ cx, cz, w, d, door, roomId, roomType? }`. -/
structure RoomDef where
  cx : ℚ
  cz : ℚ
  w : ℚ
  d : ℚ
  door : String
  roomId : String
  roomType : Option String
  deriving DecidableEq

/-- The rooms of `DEFAULT_OFFICE_LAYOUT`. -/
def DEFAULT_OFFICE_ROOMS : List RoomDef :=
  [⟨-10, -8, 7, 6, "e", "room1", some "meeting"⟩,
   ⟨10, -6, 6, 5, "w", "room2", some "breakroom"⟩,
   ⟨10, 8, 8, 6, "w", "room3", some "cubicles"⟩]

/-- `isInMeetingZone`: first room whose shrunk bounding box
(`w/2 - 0.05` by `d/2 - 0.05` around the centre) contains the point. -/
def isInMeetingZone (x z : ℚ) : List RoomDef → Option String
  | [] => none
  | r :: rest =>
    let hw := r.w / 2 - 1 / 20
    let hd := r.d / 2 - 1 / 20
    if |x - r.cx| ≤ hw ∧ |z - r.cz| ≤ hd then some r.roomId
    else isInMeetingZone x z rest

/-- One tick of the animation loop's zone logic: detect the zone at the
current position and, exactly when it differs from `lastMeetingZoneRef`,
update the ref and emit the transition (`setMeetingZone`). -/
def zoneStep (lastZone : Option String) (roomDefs : List RoomDef) (x z : ℚ) :
    Option String × List (Option String) :=
  let zone := isInMeetingZone x z roomDefs
  if zone ≠ lastZone then (zone, [zone]) else (lastZone, [])

/-- Run the zone logic over a sequence of positions, collecting the
emitted transition events. -/
def zoneRun (lastZone : Option String) (roomDefs : List RoomDef) :
    List (ℚ × ℚ) → Option String × List (Option String)
  | [] => (lastZone, [])
  | (x, z) :: rest =>
    let r₁ := zoneStep lastZone roomDefs x z
    let r₂ := zoneRun r₁.1 roomDefs rest
    (r₂.1, r₁.2 ++ r₂.2)

/-! ### Concrete fixtures used by witnesses and counterexamples -/

/-- A first authenticated connection. -/
def connA : Conn := ⟨"sockA", "u1"⟩

/-- A second authenticated connection. -/
def connB : Conn := ⟨"sockB", "u2"⟩

/-- A minimal valid `join_space` payload for a space id. -/
def joinPayload (s : String) : JoinSpacePayload :=
  ⟨.str s, .undef, none, none, none, .undef, .undef⟩

/-- A `leave_space` payload carrying an explicit space id. -/
def leavePayload (s : String) : LeaveSpacePayload := ⟨.str s⟩

/-- A `move` payload in space "S" with x = 1000 (far outside the floor). -/
def moveFarPayload : MovePayload := ⟨.str "S", some 1000, some 0, some 0, .str "down"⟩

/-- Server state after connB joined space "S". -/
def stB : ServerState := (run .empty [.joinSpaceA connB (joinPayload "S")]).1

/-- Server state after connA and connB both joined space "S". -/
def stAB : ServerState :=
  (run .empty [.joinSpaceA connA (joinPayload "S"), .joinSpaceA connB (joinPayload "S")]).1

/-- A chat database with one space "S" owned by organization "O", whose
only member is "u2"; "u1" is not a member of "O". -/
def dbS : ChatDb :=
  ⟨[("S", "O")], [("u2", "O")], [("u1", "Alice"), ("u2", "Bob")], []⟩

/-- A chat content string of 2001 characters (no surrounding whitespace). -/
def longContent : String := String.mk (List.replicate 2001 'a')

/-- An ordinary in-bounds `move` payload in space "S". -/
def moveSmallPayload : MovePayload := ⟨.str "S", some 1, some 2, some 3, .str "left"⟩

/-- The presence record created for connA by `joinPayload "S"`. -/
def recA : PresenceData := ⟨"u1", "User", 0, 0, 0, "down", .nullv⟩

/-! ## Helper lemmas about the association-list map operations -/

theorem getA_setA_self {α β : Type} [DecidableEq α] (m : List (α × β)) (k : α) (v : β) :
    getA (setA m k v) k = some v := by
  induction m with
  | nil => simp [setA, getA]
  | cons kv rest ih =>
      by_cases h : kv.1 = k
      · simp [setA, getA, h]
      · simp [setA, getA, h, ih]

theorem getA_setA_ne {α β : Type} [DecidableEq α] (m : List (α × β)) (k j : α) (v : β)
    (h : k ≠ j) : getA (setA m k v) j = getA m j := by
  induction m with
  | nil => simp [setA, getA, h]
  | cons kv rest ih =>
      by_cases hk : kv.1 = k
      · simp [setA, getA, hk, h, ih]
      · simp [setA, getA, hk, h, ih]

theorem getA_delA_self {α β : Type} [DecidableEq α] (m : List (α × β)) (k : α) :
    getA (delA m k) k = none := by
  induction m with
  | nil => simp [delA, getA]
  | cons kv rest ih =>
      by_cases h : kv.1 = k
      · simp [delA, h, ih]
      · simp [delA, getA, h, ih]

theorem getA_delA_ne {α β : Type} [DecidableEq α] (m : List (α × β)) (k j : α)
    (h : k ≠ j) : getA (delA m k) j = getA m j := by
  induction m with
  | nil => simp [delA, getA]
  | cons kv rest ih =>
      by_cases hk : kv.1 = k
      · subst hk
        simp [delA, getA, h, ih]
      · simp [delA, getA, hk, ih]

theorem getOrCreateSpace_rooms (st : ServerState) (s : String) :
    (getOrCreateSpace st s).1.rooms = st.rooms := by
  unfold getOrCreateSpace
  cases getA st.presence s <;> simp

theorem getOrCreateSpace_currentSpace (st : ServerState) (s : String) :
    (getOrCreateSpace st s).1.currentSpace = st.currentSpace := by
  unfold getOrCreateSpace
  cases getA st.presence s <;> simp

theorem getOrCreateSpace_snd (st : ServerState) (s : String) :
    (getOrCreateSpace st s).2 = ((getA st.presence s).getD []) := by
  unfold getOrCreateSpace
  cases getA st.presence s <;> simp

theorem getOrCreateSpace_listBySpace (st : ServerState) (s t : String) :
    listBySpace (getOrCreateSpace st s).1 t = listBySpace st t := by
  unfold getOrCreateSpace listBySpace
  cases h : getA st.presence s with
  | some m => simp
  | none =>
      by_cases hst : s = t
      · subst hst
        simp [getA_setA_self, h]
      · simp [getA_setA_ne _ _ _ _ hst]

theorem getOrCreateSpace_getSpaceUsers (st : ServerState) (s t : String) :
    getSpaceUsers (getOrCreateSpace st s).1 t = getSpaceUsers st t := by
  unfold getOrCreateSpace getSpaceUsers
  cases h : getA st.presence s with
  | some m => simp
  | none =>
      by_cases hst : s = t
      · subst hst
        simp [getA_setA_self, h]
      · simp [getA_setA_ne _ _ _ _ hst]

theorem trimChars_replicate_a (n : Nat) :
    trimChars (List.replicate n 'a') = List.replicate n 'a' := by
  have h : ∀ m, List.dropWhile Char.isWhitespace (List.replicate m 'a') =
      List.replicate m 'a' := by
    intro m
    cases m with
    | zero => simp [List.dropWhile]
    | succ k => simp [List.replicate, List.dropWhile]
  unfold trimChars
  rw [h, List.reverse_replicate, h, List.reverse_replicate]

theorem longContent_trim_len :
    MAX_CHAT_CONTENT_LENGTH < (jsTrim longContent).length := by
  unfold MAX_CHAT_CONTENT_LENGTH jsTrim longContent
  rw [trimChars_replicate_a]
  have h : (String.mk (List.replicate 2001 'a')).length = (List.replicate 2001 'a').length := rfl
  rw [h, List.length_replicate]
  norm_num

theorem roomLeave_currentSpace (st : ServerState) (r : RoomKey) (sid : String) :
    (roomLeave st r sid).currentSpace = st.currentSpace := by
  unfold roomLeave
  cases getA st.rooms r <;> simp

theorem roomLeave_presence (st : ServerState) (r : RoomKey) (sid : String) :
    (roomLeave st r sid).presence = st.presence := by
  unfold roomLeave
  cases getA st.rooms r <;> simp

theorem leaveSpace_emits_one (st : ServerState) (c : Conn) (p : LeaveSpacePayload) (S : String)
    (hp : p.spaceId = .str S) (hS : S ≠ "") :
    ∃ rcpts, (leaveSpace st c p).2 = [⟨rcpts, .userLeft c.uid c.sid⟩] := by
  unfold leaveSpace
  simp only [hp, coalesceSpaceId]
  rw [if_neg (by simp [JsStr.truthy, hS])]
  exact ⟨_, rfl⟩

theorem leaveSpace_currentSpace (st : ServerState) (c : Conn) (p : LeaveSpacePayload) (S : String)
    (hp : p.spaceId = .str S) (hS : S ≠ "") :
    (leaveSpace st c p).1.currentSpace = delA st.currentSpace c.sid := by
  unfold leaveSpace
  simp only [hp, coalesceSpaceId]
  rw [if_neg (by simp [JsStr.truthy, hS])]
  simp only [JsStr.display]
  split
  · rw [roomLeave_currentSpace]
  · split <;> simp [roomLeave_currentSpace]

theorem moveHandler_emits (st : ServerState) (c : Conn) (p : MovePayload) (S : String)
    (hp : p.spaceId = .str S) (hS : S ≠ "") :
    (moveHandler st c p).2 =
      [⟨(roomMembers st (.space S)).filter (fun m => m ≠ c.sid),
        .userMoved c.uid c.sid (numOrZero p.x) (numOrZero p.y) (numOrZero p.z)
          (p.direction.strOrDefault "down")⟩] := by
  have hreq : p.spaceId.asReqString = some S := by simp [hp, JsStr.asReqString, hS]
  unfold moveHandler
  rw [hreq]
  simp only [getOrCreateSpace_snd]
  cases hex : getA ((getA st.presence S).getD []) c.sid with
  | none =>
      simp only [hex]
      unfold roomMembers
      rw [getOrCreateSpace_rooms]
  | some d =>
      simp only [hex]
      unfold roomMembers
      simp only []
      rw [getOrCreateSpace_rooms]

/-! ## Claims -/

/-- C8: DM channel id symmetry — for every pair of user ids `a` and `b`,
`dmChannelId a b = dmChannelId b a`, so both participants independently
compute the same canonical channel identifier. -/
theorem c8_dmChannelId_symm (a b : String) : dmChannelId a b = dmChannelId b a := by
  unfold dmChannelId
  by_cases hab : a ≤ b
  · by_cases hba : b ≤ a
    · have h : a = b := le_antisymm hab hba
      subst h
      rfl
    · simp [hab, hba]
  · have hba : b ≤ a := le_of_not_le hab
    simp [hab, hba]

/-- C10: for every `join_dm` event whose `otherUserId` is missing
(`undefined` or `null`), not a string, or equal to the sender's own
userId, the event is dropped silently: the connection joins no DM
broadcast group and no state changes. -/
theorem c10_joinDm_guard (st : ServerState) (c : Conn) (p : JoinDmPayload)
    (h : p.otherUserId = .undef ∨ p.otherUserId = .nullv ∨
      (∃ t, p.otherUserId = .other t) ∨ p.otherUserId = .str c.uid) :
    joinDm st c p = (st, []) := by
  unfold joinDm
  rcases h with h | h | ⟨t, h⟩ | h <;> simp [h]

/-- Witness for C10: a user asking to open a DM channel with themselves
changes nothing. -/
theorem c10_joinDm_guard_witness :
    joinDm ServerState.empty connA ⟨.str "u1"⟩ = (ServerState.empty, []) :=
  c10_joinDm_guard ServerState.empty connA ⟨.str "u1"⟩ (Or.inr (Or.inr (Or.inr rfl)))

/-- C5: for every `chat_message` event with channelType SPACE sent by a
user who is not a member of the organization owning the target space (or
whose target space does not exist), nothing is broadcast and no message
row is persisted: the handler leaves the database unchanged and emits
nothing. -/
theorem c5_space_chat_auth (st : ServerState) (db : ChatDb) (c : Conn) (p : ChatPayload)
    (S : String) (hcid : p.channelId = .str S) (htype : p.channelType = .str "SPACE")
    (hauth : ∀ org, getA db.spaces S = some org → (c.uid, org) ∉ db.orgMembers) :
    chatMessage st db c p = (db, []) := by
  unfold chatMessage
  simp only [hcid, htype]
  split
  · rfl
  · split
    · rfl
    · split
      · simp only [JsStr.display]
        cases hsp : getA db.spaces S with
        | none => rfl
        | some org =>
            have hmem : (c.uid, org) ∉ db.orgMembers := hauth org hsp
            have hcon : db.orgMembers.contains (c.uid, org) = false := by
              simpa using hmem
            simp [hcon, hmem]
      · exact absurd trivial (by assumption)

/-- Witness for C5: "u1" is not a member of organization "O" that owns
space "S", so the SPACE chat message is dropped entirely. -/
theorem c5_space_chat_auth_witness :
    chatMessage ServerState.empty dbS connA ⟨.str "SPACE", .str "S", .str "hi"⟩ = (dbS, []) :=
  c5_space_chat_auth ServerState.empty dbS connA ⟨.str "SPACE", .str "S", .str "hi"⟩ "S"
    rfl rfl
    (by
      intro org h
      simp [dbS, getA] at h
      subst h
      decide)

/-- C6: chat content validation — a message whose trimmed content is empty
is dropped with no persistence and no broadcast; content whose trimmed
length exceeds `MAX_CHAT_CONTENT_LENGTH` (2000) is truncated to exactly
the first 2000 characters and then persisted and broadcast in that
truncated form (shown for a DM message and for an authorized SPACE
message), never rejected. -/
theorem c6_content_validation (st : ServerState) (db : ChatDb) (c : Conn) (p : ChatPayload) :
    ((match p.content with | .str s => jsTrim s | _ => "") = "" →
      chatMessage st db c p = (db, [])) ∧
    (∀ t ch, p.content = .str t → p.channelType = .str "DM" → p.channelId = .str ch →
      ch ≠ "" → MAX_CHAT_CONTENT_LENGTH < (jsTrim t).length →
      chatMessage st db c p =
        ({ db with messages := db.messages ++
            [⟨db.messages.length, "DM", dmChannelId c.uid ch, c.uid,
              jsSlice (jsTrim t) MAX_CHAT_CONTENT_LENGTH⟩] },
         [⟨roomMembers st (.dm (dmChannelId c.uid ch)),
           .chatMessage db.messages.length "DM" (dmChannelId c.uid ch) c.uid
             ((getA db.displayNames c.uid).getD "")
             (jsSlice (jsTrim t) MAX_CHAT_CONTENT_LENGTH)⟩])) ∧
    (∀ t ch org, p.content = .str t → p.channelType = .str "SPACE" → p.channelId = .str ch →
      ch ≠ "" → getA db.spaces ch = some org → (c.uid, org) ∈ db.orgMembers →
      MAX_CHAT_CONTENT_LENGTH < (jsTrim t).length →
      chatMessage st db c p =
        ({ db with messages := db.messages ++
            [⟨db.messages.length, "SPACE", ch, c.uid,
              jsSlice (jsTrim t) MAX_CHAT_CONTENT_LENGTH⟩] },
         [⟨roomMembers st (.space ch),
           .chatMessage db.messages.length "SPACE" ch c.uid
             ((getA db.displayNames c.uid).getD "")
             (jsSlice (jsTrim t) MAX_CHAT_CONTENT_LENGTH)⟩])) := by
  refine ⟨?_, ?_, ?_⟩
  · intro h
    unfold chatMessage
    simp [h]
  · intro t ch hct htype hcid hch hlen
    have hne : jsTrim t ≠ "" := by
      intro h0
      rw [h0] at hlen
      simp [MAX_CHAT_CONTENT_LENGTH] at hlen
    unfold chatMessage
    simp [hct, htype, hcid, hch, hne, hlen, JsStr.truthy, JsStr.display]
  · intro t ch org hct htype hcid hch hsp hmem hlen
    have hne : jsTrim t ≠ "" := by
      intro h0
      rw [h0] at hlen
      simp [MAX_CHAT_CONTENT_LENGTH] at hlen
    have hcon : db.orgMembers.contains (c.uid, org) = true := by
      simpa using hmem
    unfold chatMessage
    simp [hct, htype, hcid, hch, hne, hlen, hsp, hcon, hmem, JsStr.truthy, JsStr.display]

/-- C1 counterexample: the claim that joining a second space tears the
first membership down is false — after connA joins "S1" and then "S2",
the presence listing of "S1" still contains sockA, and no `user_left`
event was broadcast. -/
theorem c1_counterexample :
    "sockA" ∈ listBySpace
      (run .empty [.joinSpaceA connA (joinPayload "S1"), .joinSpaceA connA (joinPayload "S2")]).1
      "S1" ∧
    (run .empty [.joinSpaceA connA (joinPayload "S1"), .joinSpaceA connA (joinPayload "S2")]).2.countP
      (fun e => SEvent.isUserLeftOf "sockA" e.event) = 0 := by decide

/-- C1 amended: joins are additive at the presence level — after
`join_space S1` then `join_space S2` from a fresh connection, the
connection is present in BOTH spaces (`listBySpace S1` still includes it
and `listBySpace S2` includes it), no leave event is broadcast, and only
the per-socket `currentSpaceId` pointer tracks the latest space. -/
theorem c1_amended (S1 S2 sid uid : String) (p₁ p₂ : JoinSpacePayload)
    (h₁ : p₁.spaceId = .str S1) (h₂ : p₂.spaceId = .str S2)
    (hS1 : S1 ≠ "") (hS2 : S2 ≠ "") (hne : S1 ≠ S2) :
    sid ∈ listBySpace (run .empty [.joinSpaceA ⟨sid, uid⟩ p₁, .joinSpaceA ⟨sid, uid⟩ p₂]).1 S1 ∧
    sid ∈ listBySpace (run .empty [.joinSpaceA ⟨sid, uid⟩ p₁, .joinSpaceA ⟨sid, uid⟩ p₂]).1 S2 ∧
    getA (run .empty [.joinSpaceA ⟨sid, uid⟩ p₁, .joinSpaceA ⟨sid, uid⟩ p₂]).1.currentSpace sid =
      some S2 ∧
    (run .empty [.joinSpaceA ⟨sid, uid⟩ p₁, .joinSpaceA ⟨sid, uid⟩ p₂]).2.countP
      (fun e => SEvent.isUserLeftOf sid e.event) = 0 := by
  have hr₁ : p₁.spaceId.asReqString = some S1 := by simp [h₁, JsStr.asReqString, hS1]
  have hr₂ : p₂.spaceId.asReqString = some S2 := by simp [h₂, JsStr.asReqString, hS2]
  simp [run, step, joinSpace, hr₁, hr₂, roomJoin, roomMembers, getOrCreateSpace, getA, setA,
    listBySpace, getSpaceUsers, ServerState.empty, hne, Ne.symm hne,
    List.countP_cons, SEvent.isUserLeftOf]

/-- Witness for C1 amended: after joining "S1" then "S2", sockA is listed
in both spaces, its current space is "S2", and no user_left was emitted. -/
theorem c1_amended_witness :
    "sockA" ∈ listBySpace
      (run .empty [.joinSpaceA ⟨"sockA", "u1"⟩ (joinPayload "S1"),
        .joinSpaceA ⟨"sockA", "u1"⟩ (joinPayload "S2")]).1 "S1" ∧
    "sockA" ∈ listBySpace
      (run .empty [.joinSpaceA ⟨"sockA", "u1"⟩ (joinPayload "S1"),
        .joinSpaceA ⟨"sockA", "u1"⟩ (joinPayload "S2")]).1 "S2" ∧
    getA (run .empty [.joinSpaceA ⟨"sockA", "u1"⟩ (joinPayload "S1"),
      .joinSpaceA ⟨"sockA", "u1"⟩ (joinPayload "S2")]).1.currentSpace "sockA" = some "S2" ∧
    (run .empty [.joinSpaceA ⟨"sockA", "u1"⟩ (joinPayload "S1"),
      .joinSpaceA ⟨"sockA", "u1"⟩ (joinPayload "S2")]).2.countP
      (fun e => SEvent.isUserLeftOf "sockA" e.event) = 0 :=
  c1_amended "S1" "S2" "sockA" "u1" (joinPayload "S1") (joinPayload "S2")
    rfl rfl (by decide) (by decide) (by decide)

/-- C2 counterexample: the claim that a move from a non-member is dropped
with no broadcast is false — connection sockA has no presence record in
space "S", yet its `move` event still broadcasts `user_moved` to the
member sockB. -/
theorem c2_counterexample :
    getA ((getA stB.presence "S").getD []) "sockA" = none ∧
    deliveredCount (moveHandler stB connA moveFarPayload).2 "sockB"
      (SEvent.isUserMovedOf "sockA") = 1 := by decide

/-- C2 amended: for a move event whose sender has no presence record in
the target space, no presence record is created or mutated (every space's
roster is unchanged), but the `user_moved` event is still broadcast to
the members of the space's room other than the sender. -/
theorem c2_amended (st : ServerState) (c : Conn) (p : MovePayload) (S : String)
    (hp : p.spaceId = .str S) (hS : S ≠ "")
    (hnm : getA ((getA st.presence S).getD []) c.sid = none) :
    (∀ s, getSpaceUsers (moveHandler st c p).1 s = getSpaceUsers st s) ∧
    (moveHandler st c p).2 =
      [⟨(roomMembers st (.space S)).filter (fun m => m ≠ c.sid),
        .userMoved c.uid c.sid (numOrZero p.x) (numOrZero p.y) (numOrZero p.z)
          (p.direction.strOrDefault "down")⟩] := by
  have hreq : p.spaceId.asReqString = some S := by simp [hp, JsStr.asReqString, hS]
  unfold moveHandler
  rw [hreq]
  simp only [getOrCreateSpace_snd, hnm]
  constructor
  · intro s
    exact getOrCreateSpace_getSpaceUsers st S s
  · unfold roomMembers
    rw [getOrCreateSpace_rooms]

/-- Witness for C2 amended: applied to sockA moving in "S" where only
sockB is present. -/
theorem c2_amended_witness :
    getA ((getA stB.presence "S").getD []) "sockA" = none ∧
    ((∀ s, getSpaceUsers (moveHandler stB connA moveFarPayload).1 s = getSpaceUsers stB s) ∧
     (moveHandler stB connA moveFarPayload).2 =
       [⟨(roomMembers stB (.space "S")).filter (fun m => m ≠ "sockA"),
         .userMoved "u1" "sockA" (numOrZero moveFarPayload.x) (numOrZero moveFarPayload.y)
           (numOrZero moveFarPayload.z) (moveFarPayload.direction.strOrDefault "down")⟩]) :=
  ⟨by decide, c2_amended stB connA moveFarPayload "S" rfl (by decide) (by decide)⟩

/-- C4 counterexample: the claim that an out-of-bounds move is clamped
before being stored and broadcast is false — a move of member sockA to
x = 1000 is stored and broadcast as x = 1000, which lies outside the
floor bounds (FLOOR_HALF = 17.5) and differs from its clamped value. -/
theorem c4_counterexample :
    ((getA ((getA (moveHandler stAB connA moveFarPayload).1.presence "S").getD []) "sockA").map
      PresenceData.x = some 1000) ∧
    (moveHandler stAB connA moveFarPayload).2 =
      [⟨["sockB"], .userMoved "u1" "sockA" 1000 0 0 "down"⟩] ∧
    ¬((1000 : ℚ) ≤ FLOOR_HALF) ∧
    (clampPosition 1000 0).1 ≠ 1000 := by
  have h1 : ((35 : ℚ) / 2) ≤ 1000 := by norm_num
  have h2 : (-(35 / 2) : ℚ) ≤ 35 / 2 := by norm_num
  refine ⟨by decide, by decide, by norm_num [FLOOR_HALF], ?_⟩
  unfold clampPosition FLOOR_HALF
  rw [min_eq_left h1]
  rw [max_eq_right h2]
  norm_num

/-- C4 amended: the server's move handler stores and broadcasts the
position exactly as received — no clamping is applied on the cited
socket handler; the bounds clamp lives in the client movement tick,
whose output always lies within the floor bounds. -/
theorem c4_amended (st : ServerState) (c : Conn) (p : MovePayload) (S : String)
    (d : PresenceData) (hp : p.spaceId = .str S) (hS : S ≠ "")
    (hd : getA ((getA st.presence S).getD []) c.sid = some d) :
    (getA ((getA (moveHandler st c p).1.presence S).getD []) c.sid =
      some { d with x := numOrZero p.x, y := numOrZero p.y, z := numOrZero p.z,
                    direction := p.direction.strOrDefault "down" }) ∧
    (moveHandler st c p).2 =
      [⟨(roomMembers st (.space S)).filter (fun m => m ≠ c.sid),
        .userMoved c.uid c.sid (numOrZero p.x) (numOrZero p.y) (numOrZero p.z)
          (p.direction.strOrDefault "down")⟩] ∧
    (∀ x dx, -FLOOR_W / 2 + 1 ≤ clientClampX x dx ∧ clientClampX x dx ≤ FLOOR_W / 2 - 1) ∧
    (∀ z dz, -FLOOR_D / 2 + 1 ≤ clientClampZ z dz ∧ clientClampZ z dz ≤ FLOOR_D / 2 - 1) := by
  have hreq : p.spaceId.asReqString = some S := by simp [hp, JsStr.asReqString, hS]
  refine ⟨?_, moveHandler_emits st c p S hp hS, ?_, ?_⟩
  · unfold moveHandler
    rw [hreq]
    simp only [getOrCreateSpace_snd, hd]
    simp [getA_setA_self]
  · intro x dx
    refine ⟨le_max_left _ _, max_le ?_ (min_le_left _ _)⟩
    norm_num [FLOOR_W, GRID_SIZE, CELL]
  · intro z dz
    refine ⟨le_max_left _ _, max_le ?_ (min_le_left _ _)⟩
    norm_num [FLOOR_D, GRID_SIZE, CELL]

/-- Witness for C4 amended: sockA, a member of "S", moves to x = 1000 and
the stored and broadcast position is exactly 1000. -/
theorem c4_amended_witness :
    getA ((getA stAB.presence "S").getD []) "sockA" = some recA ∧
    ((getA ((getA (moveHandler stAB connA moveFarPayload).1.presence "S").getD []) "sockA" =
      some { recA with x := numOrZero moveFarPayload.x, y := numOrZero moveFarPayload.y,
                       z := numOrZero moveFarPayload.z,
                       direction := moveFarPayload.direction.strOrDefault "down" }) ∧
     (moveHandler stAB connA moveFarPayload).2 =
       [⟨(roomMembers stAB (.space "S")).filter (fun m => m ≠ "sockA"),
         .userMoved "u1" "sockA" (numOrZero moveFarPayload.x) (numOrZero moveFarPayload.y)
           (numOrZero moveFarPayload.z) (moveFarPayload.direction.strOrDefault "down")⟩] ∧
     (∀ x dx, -FLOOR_W / 2 + 1 ≤ clientClampX x dx ∧ clientClampX x dx ≤ FLOOR_W / 2 - 1) ∧
     (∀ z dz, -FLOOR_D / 2 + 1 ≤ clientClampZ z dz ∧ clientClampZ z dz ≤ FLOOR_D / 2 - 1)) :=
  ⟨by decide, c4_amended stAB connA moveFarPayload "S" recA rfl (by decide) (by decide)⟩

/-- C7: sender exclusion — an accepted move from connection `c` in a
space whose room matches its `n`-connection membership emits exactly one
`user_moved` event, delivered to the `n - 1` members other than the
sender, never to the sender itself. -/
theorem c7_sender_exclusion (st : ServerState) (c : Conn) (p : MovePayload) (S : String)
    (n : Nat) (hp : p.spaceId = .str S) (hS : S ≠ "")
    (hroom : roomMembers st (.space S) = listBySpace st S)
    (hmem : c.sid ∈ listBySpace st S)
    (hnd : (listBySpace st S).Nodup)
    (hn : (listBySpace st S).length = n) :
    ∃ e, (moveHandler st c p).2 = [e] ∧
      e.event = .userMoved c.uid c.sid (numOrZero p.x) (numOrZero p.y) (numOrZero p.z)
        (p.direction.strOrDefault "down") ∧
      c.sid ∉ e.recipients ∧ e.recipients.length = n - 1 := by
  refine ⟨_, moveHandler_emits st c p S hp hS, rfl, ?_, ?_⟩
  · rw [hroom]
    simp [List.mem_filter]
  · rw [hroom]
    have hfun : (fun m : String => decide (m ≠ c.sid)) = (fun m : String => m != c.sid) := by
      funext m
      by_cases h : m = c.sid <;> simp [h]
    rw [hfun, ← hnd.erase_eq_filter c.sid, List.length_erase_of_mem hmem, hn]

/-- Witness for C7: sockA moves in "S" with members sockA and sockB;
exactly one recipient (sockB), and sockA is excluded. -/
theorem c7_sender_exclusion_witness :
    ∃ e, (moveHandler stAB connA moveSmallPayload).2 = [e] ∧
      e.event = .userMoved "u1" "sockA" (numOrZero moveSmallPayload.x)
        (numOrZero moveSmallPayload.y) (numOrZero moveSmallPayload.z)
        (moveSmallPayload.direction.strOrDefault "down") ∧
      "sockA" ∉ e.recipients ∧ e.recipients.length = 2 - 1 :=
  c7_sender_exclusion stAB connA moveSmallPayload "S" 2 rfl (by decide) (by decide)
    (by decide) (by decide) (by decide)

/-- C3 counterexample: two explicit `leave_space` events for the same
space broadcast `user_left` to the remaining member twice, not once. -/
theorem c3_counterexample :
    deliveredCount
      (run .empty
        [.joinSpaceA connA (joinPayload "S"), .joinSpaceA connB (joinPayload "S"),
         .leaveSpaceA connA (leavePayload "S"), .leaveSpaceA connA (leavePayload "S")]).2
      "sockB" (SEvent.isUserLeftOf "sockA") = 2 := by decide

/-- C3 amended: the leave path never throws and an explicit `leave_space`
followed by a transport disconnect broadcasts exactly one `user_left`
(the disconnect path emits nothing once `currentSpaceId` is cleared); but
each explicit `leave_space` event carrying the space id emits its own
`user_left` broadcast, so two explicit leaves emit one each — two in
total. -/
theorem c3_amended (st : ServerState) (c : Conn) (p : LeaveSpacePayload) (S : String)
    (hp : p.spaceId = .str S) (hS : S ≠ "") :
    ((leaveSpace st c p).2.countP (fun e => SEvent.isUserLeftOf c.sid e.event) = 1) ∧
    ((leaveSpace (leaveSpace st c p).1 c p).2.countP
      (fun e => SEvent.isUserLeftOf c.sid e.event) = 1) ∧
    (disconnect (leaveSpace st c p).1 c).2 = [] := by
  obtain ⟨r₁, h₁⟩ := leaveSpace_emits_one st c p S hp hS
  obtain ⟨r₂, h₂⟩ := leaveSpace_emits_one (leaveSpace st c p).1 c p S hp hS
  refine ⟨?_, ?_, ?_⟩
  · rw [h₁]
    simp [List.countP_cons, SEvent.isUserLeftOf]
  · rw [h₂]
    simp [List.countP_cons, SEvent.isUserLeftOf]
  · have hcs : getA (leaveSpace st c p).1.currentSpace c.sid = none := by
      rw [leaveSpace_currentSpace st c p S hp hS, getA_delA_self]
    unfold disconnect
    rw [hcs]

/-- Witness for C3 amended: applied to sockA leaving "S" from the
two-member state. -/
theorem c3_amended_witness :
    ((leaveSpace stAB connA (leavePayload "S")).2.countP
      (fun e => SEvent.isUserLeftOf "sockA" e.event) = 1) ∧
    ((leaveSpace (leaveSpace stAB connA (leavePayload "S")).1 connA (leavePayload "S")).2.countP
      (fun e => SEvent.isUserLeftOf "sockA" e.event) = 1) ∧
    (disconnect (leaveSpace stAB connA (leavePayload "S")).1 connA).2 = [] :=
  c3_amended stAB connA (leavePayload "S") "S" rfl (by decide)

/-- C9: zone transition edge detection — each tick detects the zone at
the current position and emits a transition event exactly when the
detected zone differs from the previously detected one; concretely,
moving from (0,0) (outside any zone) into room1 and then moving twice
more inside room1 emits exactly one zone event, the enter of "room1". -/
theorem c9_zone_edge_detection :
    (∀ (lastZone : Option String) (defs : List RoomDef) (x z : ℚ),
      zoneStep lastZone defs x z =
        (isInMeetingZone x z defs,
          if isInMeetingZone x z defs ≠ lastZone then [isInMeetingZone x z defs] else [])) ∧
    zoneRun none DEFAULT_OFFICE_ROOMS [(0, 0), (-10, -8), (-9, -8), (-10, -7)] =
      (some "room1", [some "room1"]) := by
  constructor
  · intro lastZone defs x z
    unfold zoneStep
    by_cases h : isInMeetingZone x z defs = lastZone
    · simp [h]
    · simp [h]
  · have hout : isInMeetingZone 0 0 DEFAULT_OFFICE_ROOMS = none := by
      simp only [isInMeetingZone, DEFAULT_OFFICE_ROOMS]
      norm_num [abs_le]
    have hin1 : isInMeetingZone (-10) (-8) DEFAULT_OFFICE_ROOMS = some "room1" := by
      simp only [isInMeetingZone, DEFAULT_OFFICE_ROOMS]
      norm_num [abs_le]
    have hin2 : isInMeetingZone (-9) (-8) DEFAULT_OFFICE_ROOMS = some "room1" := by
      simp only [isInMeetingZone, DEFAULT_OFFICE_ROOMS]
      norm_num [abs_le]
    have hin3 : isInMeetingZone (-10) (-7) DEFAULT_OFFICE_ROOMS = some "room1" := by
      simp only [isInMeetingZone, DEFAULT_OFFICE_ROOMS]
      norm_num [abs_le]
    simp [zoneRun, zoneStep, hout, hin1, hin2, hin3]

/-- Witness for C6: a DM message whose content is 2001 characters long is
persisted and broadcast with its content truncated to the first 2000
characters. -/
theorem c6_content_validation_witness :
    MAX_CHAT_CONTENT_LENGTH < (jsTrim longContent).length ∧
    chatMessage ServerState.empty dbS connA ⟨.str "DM", .str "u2", .str longContent⟩ =
      ({ dbS with messages := dbS.messages ++
          [⟨dbS.messages.length, "DM", dmChannelId connA.uid "u2", connA.uid,
            jsSlice (jsTrim longContent) MAX_CHAT_CONTENT_LENGTH⟩] },
       [⟨roomMembers ServerState.empty (.dm (dmChannelId connA.uid "u2")),
         .chatMessage dbS.messages.length "DM" (dmChannelId connA.uid "u2") connA.uid
           ((getA dbS.displayNames connA.uid).getD "")
           (jsSlice (jsTrim longContent) MAX_CHAT_CONTENT_LENGTH)⟩]) :=
  ⟨longContent_trim_len,
    (c6_content_validation ServerState.empty dbS connA
        ⟨.str "DM", .str "u2", .str longContent⟩).2.1 longContent "u2"
      rfl rfl rfl (by decide) longContent_trim_len⟩

end Devhub
